import Mathlib

/-!
Verification of `monitor_compact.py`, a compatibility adapter that wraps a
collaborator module (`monitor`) and converts its raised exceptions into
legacy string/tuple/collection return values.

Shallow embedding: the collaborator is unseen, so every wrapped operation is
modelled as a function of the *outcome of the collaborator call* — a value
`call : Except Exc PyVal`, where `Exc` is the taxonomy of exceptions the
collaborator may raise and `PyVal` is a model of Python runtime values.
An adapter operation either returns a value, lets the collaborator exception
propagate (operations with no try/except), or raises a RuntimeError of its
own (`check_if_sensitive_info_exposed`); this is the `AdapterOutcome` type.
-/

/-- Model of the Python runtime values the adapter manipulates: `None`,
strings, ints, booleans, lists, tuples and string-keyed dicts (modelled as
association lists in insertion order). -/
inductive PyVal where
  | none
  | str (s : String)
  | int (n : Int)
  | bool (b : Bool)
  | list (xs : List PyVal)
  | tuple (xs : List PyVal)
  | dict (entries : List (String × PyVal))

/-- The exception taxonomy distinguished by the adapter's handlers:
`monitor.ProwTimeoutError`, `monitor.ProwFetchError`, `monitor.ProwParseError`,
and any other `Exception` (the catch-all case). -/
inductive Exc where
  | timeout
  | fetch
  | parse
  | other
deriving DecidableEq

/-- Observable outcome of calling an adapter operation: it returns a value,
it lets the collaborator's exception propagate out (operations that do not
catch), or it raises a `RuntimeError` of its own with the given message. -/
inductive AdapterOutcome where
  | ok (v : PyVal)
  | raised (e : Exc)
  | runtimeError (msg : String)

/-- `true` iff the adapter call returned a value (did not raise). -/
def AdapterOutcome.isValue : AdapterOutcome → Bool
  | .ok _ => true
  | .raised _ => false
  | .runtimeError _ => false

/-- Lines 29-40: map a typed exception to its legacy sentinel string via the
`isinstance` chain, with `"ERROR"` as the default fallback. -/
def _err_str_from_exc (e : Exc) : String :=
  match e with
  | .timeout => "Request timed out"
  | .fetch => "Error while sending request to url"
  | .parse => "ERROR"
  | .other => "ERROR"

/-- Lines 14-23: mirror `monitor.PROW_URL` and `monitor.final_job_list` into
the module globals, defaulting to `None` / `[]` when the attribute read
raises. Each argument is the outcome of the corresponding attribute read on
the collaborator; the function is total (initialization never raises). -/
def _sync_module_attrs (prowUrlRead jobListRead : Except Exc PyVal) :
    PyVal × PyVal :=
  ((match prowUrlRead with
    | .ok v => v
    | .error _ => PyVal.none),
   (match jobListRead with
    | .ok v => v
    | .error _ => PyVal.list []))

/-- The adapter module's own mutable state: the two mirrored globals
`PROW_URL` (line 11) and `final_job_list` (line 12). -/
structure ModuleState where
  PROW_URL : PyVal
  final_job_list : PyVal

/-- Line 26: the single load-time call `_sync_module_attrs()` that writes the
two mirrored globals. -/
def moduleInit (prowUrlRead jobListRead : Except Exc PyVal) : ModuleState :=
  { PROW_URL := (_sync_module_attrs prowUrlRead jobListRead).1,
    final_job_list := (_sync_module_attrs prowUrlRead jobListRead).2 }

/-- Lines 44-48: forward, catching every exception into its legacy string. -/
def fetch_release_date (call : Except Exc PyVal) : AdapterOutcome :=
  match call with
  | .ok v => .ok v
  | .error e => .ok (.str (_err_str_from_exc e))

/-- Lines 50-55. -/
def fetch_build_time (call : Except Exc PyVal) : AdapterOutcome :=
  match call with
  | .ok v => .ok v
  | .error e => .ok (.str (_err_str_from_exc e))

/-- Lines 57-58: plain forwarding with NO try/except — a collaborator
exception propagates to the caller. -/
def set_prow_url (call : Except Exc PyVal) : AdapterOutcome :=
  match call with
  | .ok v => .ok v
  | .error e => .raised e

/-- Lines 60-63: plain forwarding, deliberately re-raising. -/
def load_config (call : Except Exc PyVal) : AdapterOutcome :=
  match call with
  | .ok v => .ok v
  | .error e => .raised e

/-- Lines 65-66: plain forwarding. -/
def get_current_date (call : Except Exc PyVal) : AdapterOutcome :=
  match call with
  | .ok v => .ok v
  | .error e => .raised e

/-- Lines 68-69: plain forwarding. -/
def parse_job_date (call : Except Exc PyVal) : AdapterOutcome :=
  match call with
  | .ok v => .ok v
  | .error e => .raised e

/-- Lines 71-75. -/
def get_jobs (call : Except Exc PyVal) : AdapterOutcome :=
  match call with
  | .ok v => .ok v
  | .error e => .ok (.str (_err_str_from_exc e))

/-- Lines 77-81. -/
def get_n_recent_jobs (call : Except Exc PyVal) : AdapterOutcome :=
  match call with
  | .ok v => .ok v
  | .error e => .ok (.str (_err_str_from_exc e))

/-- Lines 83-87. -/
def check_job_status (call : Except Exc PyVal) : AdapterOutcome :=
  match call with
  | .ok v => .ok v
  | .error e => .ok (.str (_err_str_from_exc e))

/-- Lines 89-93. -/
def cluster_deploy_status (call : Except Exc PyVal) : AdapterOutcome :=
  match call with
  | .ok v => .ok v
  | .error e => .ok (.str (_err_str_from_exc e))

/-- Lines 95-99. -/
def cluster_creation_error_analysis (call : Except Exc PyVal) : AdapterOutcome :=
  match call with
  | .ok v => .ok v
  | .error e => .ok (.str (_err_str_from_exc e))

/-- Lines 101-105. -/
def check_if_gather_libvirt_dir_exists (call : Except Exc PyVal) : AdapterOutcome :=
  match call with
  | .ok v => .ok v
  | .error e => .ok (.str (_err_str_from_exc e))

/-- Lines 107-111. -/
def check_hypervisor_error (call : Except Exc PyVal) : AdapterOutcome :=
  match call with
  | .ok v => .ok v
  | .error e => .ok (.str (_err_str_from_exc e))

/-- Lines 113-119: the one catching operation that re-raises — any caught
exception becomes a `RuntimeError` whose message embeds the mapped legacy
string. -/
def check_if_sensitive_info_exposed (call : Except Exc PyVal) : AdapterOutcome :=
  match call with
  | .ok v => .ok v
  | .error e =>
      .runtimeError ("Error in check_if_sensitive_info_exposed: " ++ _err_str_from_exc e)

/-- Lines 121-125. -/
def get_node_status (call : Except Exc PyVal) : AdapterOutcome :=
  match call with
  | .ok v => .ok v
  | .error e => .ok (.str (_err_str_from_exc e))

/-- Lines 127-131. -/
def check_node_crash (call : Except Exc PyVal) : AdapterOutcome :=
  match call with
  | .ok v => .ok v
  | .error e => .ok (.str (_err_str_from_exc e))

/-- Lines 133-137: every exception maps to the lease-specific override. -/
def get_lease (call : Except Exc PyVal) : AdapterOutcome :=
  match call with
  | .ok v => .ok v
  | .error _ => .ok (.str "Failed to fetch lease information")

/-- Lines 139-143: every exception maps to the nightly-specific override,
an f-string instantiated with `job_platform`. -/
def get_nightly (job_platform : String) (call : Except Exc PyVal) : AdapterOutcome :=
  match call with
  | .ok v => .ok v
  | .error _ =>
      .ok (.str ("Unable to fetch nightly " ++ job_platform ++ " information - No match found"))

/-- Lines 145-154: handlers for timeout, fetch, then the generic catch-all
(which therefore also receives parse errors). -/
def get_quota_and_nightly (call : Except Exc PyVal) : AdapterOutcome :=
  match call with
  | .ok v => .ok v
  | .error .timeout => .ok (.tuple [.str "Request timed out", .none])
  | .error .fetch => .ok (.tuple [.str "Error while sending request to url", .none])
  | .error _ => .ok (.tuple [.str "Failed to fetch lease information", .none])

/-- Lines 156-158: plain forwarding. -/
def job_classifier (call : Except Exc PyVal) : AdapterOutcome :=
  match call with
  | .ok v => .ok v
  | .error e => .raised e

/-- Lines 160-175: on success, runtime shape inspection — a result that is
already a tuple is returned unchanged, any other result is paired with
`None`; on failure, per-kind legacy pairs (the parse handler and the generic
handler return the same pair). -/
def get_failed_monitor_testcases (call : Except Exc PyVal) : AdapterOutcome :=
  match call with
  | .ok (PyVal.tuple ys) => .ok (.tuple ys)
  | .ok v => .ok (.tuple [v, .none])
  | .error .timeout => .ok (.tuple [.list [], .str "Request timed out"])
  | .error .fetch =>
      .ok (.tuple [.list [], .str "Failed to get response from e2e-test directory url"])
  | .error _ =>
      .ok (.tuple [.list [], .str "Failed to parse the data from e2e-test log file!"])

/-- Lines 177-188: NO shape inspection — the successful result is always
paired with `None`. -/
def get_failed_monitor_testcases_from_xml (call : Except Exc PyVal) : AdapterOutcome :=
  match call with
  | .ok v => .ok (.tuple [v, .none])
  | .error .timeout => .ok (.tuple [.list [], .str "Request timed out"])
  | .error .fetch =>
      .ok (.tuple [.list [], .str "Failed to get response from e2e-test directory url"])
  | .error .parse => .ok (.tuple [.list [], .str "Failed to parse junit e2e log file!"])
  | .error .other => .ok (.tuple [.list [], .str "Monitor test file not found"])

/-- Lines 190-194: every exception maps to an empty dict. -/
def get_testcase_frequency (call : Except Exc PyVal) : AdapterOutcome :=
  match call with
  | .ok v => .ok v
  | .error _ => .ok (.dict [])

/-- Lines 196-208: NO shape inspection — the successful result is always
paired with `None`, even when it is already a legacy-shaped tuple. -/
def get_failed_e2e_testcases (call : Except Exc PyVal) : AdapterOutcome :=
  match call with
  | .ok v => .ok (.tuple [v, .none])
  | .error .timeout => .ok (.tuple [.list [], .str "Request timed out"])
  | .error .fetch =>
      .ok (.tuple [.list [], .str "Failed to get response from e2e-test directory url"])
  | .error .parse =>
      .ok (.tuple [.list [], .str "Failed to parse the data from e2e-test log file!"])
  | .error .other => .ok (.tuple [.list [], .str "Test summary file not found"])

/-- Lines 210-221: NO shape inspection — always pairs with `None`. -/
def get_junit_symptom_detection_testcase_failures (call : Except Exc PyVal) : AdapterOutcome :=
  match call with
  | .ok v => .ok (.tuple [v, .none])
  | .error .timeout => .ok (.tuple [.list [], .str "Request timed out"])
  | .error .fetch => .ok (.tuple [.list [], .str "Error while sending request to url"])
  | .error .parse =>
      .ok (.tuple [.list [], .str "Failed to parse symptom detection e2e log file!"])
  | .error .other => .ok (.tuple [.list [], .str "Junit test summary file not found"])

/-- Python `dict.get(key, default)` on the association-list model. -/
def pyDictGet (d : List (String × PyVal)) (k : String) (default : PyVal) : PyVal :=
  (d.lookup k).getD default

/-- Python `len(v)`, raising `TypeError` (modelled as `Exc.other`) on values
with no length. -/
def pyLen : PyVal → Except Exc Nat
  | .str s => .ok s.length
  | .list xs => .ok xs.length
  | .tuple xs => .ok xs.length
  | .dict d => .ok d.length
  | _ => .error .other

/-- Lines 228-240, the body of the try block of `get_all_failed_tc`: a
3-tuple is returned unchanged; a dict yields `(dict, total_count,
error_object)` where a `len` on a length-less sub-value raises a
`TypeError` (modelled as `Exc.other`), evaluated left to right; any other
value (a non-3-tuple included) reaches `.get` and raises an
`AttributeError` (modelled as `Exc.other`). -/
def get_all_failed_tc_body (call : Except Exc PyVal) : Except Exc PyVal :=
  match call with
  | .error e => .error e
  | .ok failed_tc =>
    match failed_tc with
    | .tuple xs =>
        if xs.length = 3 then .ok (.tuple xs) else .error .other
    | .dict d =>
        (match pyLen (pyDictGet d "conformance" (.list [])),
               pyLen (pyDictGet d "monitor" (.list [])),
               pyLen (pyDictGet d "symptom_detection" (.list [])) with
         | .error e, _, _ => .error e
         | .ok _, .error e, _ => .error e
         | .ok _, .ok _, .error e => .error e
         | .ok c, .ok m, .ok s =>
             .ok (.tuple [failed_tc, .int (c + m + s),
               .dict [("conformance", .none), ("monitor", .none),
                 ("symptom_detection", .none)]]))
    | _ => .error .other

/-- Lines 223-248: the try body above, with the four exception handlers each
returning an empty-dict/zero-count triple with the per-kind error string in
all three slots. -/
def get_all_failed_tc (call : Except Exc PyVal) : AdapterOutcome :=
  match get_all_failed_tc_body call with
  | .ok v => .ok v
  | .error .timeout =>
      .ok (.tuple [.dict [], .int 0, .dict [("conformance", .str "Request timed out"),
        ("monitor", .str "Request timed out"), ("symptom_detection", .str "Request timed out")]])
  | .error .fetch =>
      .ok (.tuple [.dict [], .int 0,
        .dict [("conformance", .str "Error while sending request to url"),
          ("monitor", .str "Error while sending request to url"),
          ("symptom_detection", .str "Error while sending request to url")]])
  | .error .parse =>
      .ok (.tuple [.dict [], .int 0,
        .dict [("conformance", .str "Failed to parse the data from e2e-test log file!"),
          ("monitor", .str "Failed to parse the data from e2e-test log file!"),
          ("symptom_detection", .str "Failed to parse the data from e2e-test log file!")]])
  | .error .other =>
      .ok (.tuple [.dict [], .int 0,
        .dict [("conformance", .str "Test summary file not found"),
          ("monitor", .str "Test summary file not found"),
          ("symptom_detection", .str "Test summary file not found")]])

/-- Lines 250-260. -/
def check_ts_exe_status (call : Except Exc PyVal) : AdapterOutcome :=
  match call with
  | .ok v => .ok v
  | .error .timeout => .ok (.str "Request timed out")
  | .error .fetch => .ok (.str "Error while sending request to url")
  | .error .parse => .ok (.str "ERROR")
  | .error .other => .ok (.str "ERROR")

/-- Lines 262-272. -/
def print_all_failed_tc (call : Except Exc PyVal) : AdapterOutcome :=
  match call with
  | .ok v => .ok v
  | .error .timeout => .ok (.str "Request timed out")
  | .error .fetch => .ok (.str "Error while sending request to url")
  | .error .parse => .ok (.str "ERROR")
  | .error .other => .ok (.str "ERROR")

/-- Lines 274-279: every exception maps to the boolean `False`. -/
def check_testcase_failure (call : Except Exc PyVal) : AdapterOutcome :=
  match call with
  | .ok v => .ok v
  | .error _ => .ok (.bool false)

/-- Lines 281-291. -/
def get_jobs_with_date (call : Except Exc PyVal) : AdapterOutcome :=
  match call with
  | .ok v => .ok v
  | .error .timeout => .ok (.str "Request timed out")
  | .error .fetch => .ok (.str "Error while sending request to url")
  | .error .parse => .ok (.str "ERROR")
  | .error .other => .ok (.str "ERROR")

/-- Lines 293-303. -/
def get_next_page_first_build_date (call : Except Exc PyVal) : AdapterOutcome :=
  match call with
  | .ok v => .ok v
  | .error .timeout => .ok (.str "Request timed out")
  | .error .fetch => .ok (.str "Error while sending request to url")
  | .error .parse => .ok (.str "ERROR")
  | .error .other => .ok (.str "ERROR")

/-- Lines 305-316: every exception maps to the empty list. -/
def get_brief_job_info (call : Except Exc PyVal) : AdapterOutcome :=
  match call with
  | .ok v => .ok v
  | .error .timeout => .ok (.list [])
  | .error .fetch => .ok (.list [])
  | .error .parse => .ok (.list [])
  | .error .other => .ok (.list [])

/-- Lines 318-328: every exception maps to the integer `1`. -/
def get_detailed_job_info (call : Except Exc PyVal) : AdapterOutcome :=
  match call with
  | .ok v => .ok v
  | .error .timeout => .ok (.int 1)
  | .error .fetch => .ok (.int 1)
  | .error .parse => .ok (.int 1)
  | .error .other => .ok (.int 1)

/-- Lines 331-332: the module-level `__getattr__` fallback, which simply
reads the same-named attribute on the collaborator (`getattr(monitor, name)`),
propagating whatever that read does. -/
def __getattr__ (collab : String → Except Exc PyVal) (name : String) :
    Except Exc PyVal :=
  collab name

/-- Python module attribute semantics: an attribute access on the adapter
module first consults the names the module itself defines (`env`); only when
that lookup fails is the module-level `__getattr__` invoked. -/
def adapterModuleAttr (env : String → Option PyVal)
    (collab : String → Except Exc PyVal) (name : String) : Except Exc PyVal :=
  match env name with
  | some v => Except.ok v
  | Option.none => __getattr__ collab name

/-- The wrapped operations the adapter module exposes, keyed by name, in
source order. Each is given the uniform shape `String → Except Exc PyVal →
AdapterOutcome`; the extra string argument is only consulted by
`get_nightly` (its `job_platform` parameter). None of these function bodies
contains an assignment to the module globals (`global` appears only in
`_sync_module_attrs`). -/
def adapterOpTable : List (String × (String → Except Exc PyVal → AdapterOutcome)) :=
  [("fetch_release_date", fun _ call => fetch_release_date call),
   ("fetch_build_time", fun _ call => fetch_build_time call),
   ("set_prow_url", fun _ call => set_prow_url call),
   ("load_config", fun _ call => load_config call),
   ("get_current_date", fun _ call => get_current_date call),
   ("parse_job_date", fun _ call => parse_job_date call),
   ("get_jobs", fun _ call => get_jobs call),
   ("get_n_recent_jobs", fun _ call => get_n_recent_jobs call),
   ("check_job_status", fun _ call => check_job_status call),
   ("cluster_deploy_status", fun _ call => cluster_deploy_status call),
   ("cluster_creation_error_analysis", fun _ call => cluster_creation_error_analysis call),
   ("check_if_gather_libvirt_dir_exists", fun _ call => check_if_gather_libvirt_dir_exists call),
   ("check_hypervisor_error", fun _ call => check_hypervisor_error call),
   ("check_if_sensitive_info_exposed", fun _ call => check_if_sensitive_info_exposed call),
   ("get_node_status", fun _ call => get_node_status call),
   ("check_node_crash", fun _ call => check_node_crash call),
   ("get_lease", fun _ call => get_lease call),
   ("get_nightly", fun p call => get_nightly p call),
   ("get_quota_and_nightly", fun _ call => get_quota_and_nightly call),
   ("job_classifier", fun _ call => job_classifier call),
   ("get_failed_monitor_testcases", fun _ call => get_failed_monitor_testcases call),
   ("get_failed_monitor_testcases_from_xml",
     fun _ call => get_failed_monitor_testcases_from_xml call),
   ("get_testcase_frequency", fun _ call => get_testcase_frequency call),
   ("get_failed_e2e_testcases", fun _ call => get_failed_e2e_testcases call),
   ("get_junit_symptom_detection_testcase_failures",
     fun _ call => get_junit_symptom_detection_testcase_failures call),
   ("get_all_failed_tc", fun _ call => get_all_failed_tc call),
   ("check_ts_exe_status", fun _ call => check_ts_exe_status call),
   ("print_all_failed_tc", fun _ call => print_all_failed_tc call),
   ("check_testcase_failure", fun _ call => check_testcase_failure call),
   ("get_jobs_with_date", fun _ call => get_jobs_with_date call),
   ("get_next_page_first_build_date", fun _ call => get_next_page_first_build_date call),
   ("get_brief_job_info", fun _ call => get_brief_job_info call),
   ("get_detailed_job_info", fun _ call => get_detailed_job_info call)]

/-- Invoking a named adapter operation against the module state: every
operation body leaves the two mirrored globals untouched — only the
load-time `_sync_module_attrs` call (`moduleInit`) ever writes them. An
unknown name falls through to the `__getattr__` delegation and so also
leaves the state alone; it is modelled here as raising. -/
def adapterStep (s : ModuleState) (opName strArg : String)
    (call : Except Exc PyVal) : ModuleState × AdapterOutcome :=
  match adapterOpTable.lookup opName with
  | some f => (s, f strArg call)
  | Option.none => (s, AdapterOutcome.raised Exc.other)

/-- The attribute names the adapter module defines itself (its module-level
bindings, in source order); Python consults these before falling back to the
module-level `__getattr__`. -/
def adapterDefinedNames : List String :=
  ["monitor", "PROW_URL", "final_job_list", "_sync_module_attrs",
   "_err_str_from_exc", "fetch_release_date", "fetch_build_time",
   "set_prow_url", "load_config", "get_current_date", "parse_job_date",
   "get_jobs", "get_n_recent_jobs", "check_job_status",
   "cluster_deploy_status", "cluster_creation_error_analysis",
   "check_if_gather_libvirt_dir_exists", "check_hypervisor_error",
   "check_if_sensitive_info_exposed", "get_node_status", "check_node_crash",
   "get_lease", "get_nightly", "get_quota_and_nightly", "job_classifier",
   "get_failed_monitor_testcases", "get_failed_monitor_testcases_from_xml",
   "get_testcase_frequency", "get_failed_e2e_testcases",
   "get_junit_symptom_detection_testcase_failures", "get_all_failed_tc",
   "check_ts_exe_status", "print_all_failed_tc", "check_testcase_failure",
   "get_jobs_with_date", "get_next_page_first_build_date",
   "get_brief_job_info", "get_detailed_job_info", "__getattr__"]

/-- Claim C4: for every collaborator failure kind, the sensitive-info
operation raises a RuntimeError whose message embeds the legacy string the
generic mapping assigns to that kind (so it never returns a value on
failure), and it is the only wrapped-and-catching operation observable as a
raised error: every other catching operation still returns a value on that
same failure. -/
theorem C4_sensitive_info_raises_runtime_error :
    ∀ e : Exc,
      check_if_sensitive_info_exposed (Except.error e)
        = AdapterOutcome.runtimeError
            ("Error in check_if_sensitive_info_exposed: " ++ _err_str_from_exc e)
      ∧ (check_if_sensitive_info_exposed (Except.error e)).isValue = false
      ∧ (fetch_release_date (Except.error e)).isValue = true
      ∧ (fetch_build_time (Except.error e)).isValue = true
      ∧ (get_jobs (Except.error e)).isValue = true
      ∧ (get_n_recent_jobs (Except.error e)).isValue = true
      ∧ (check_job_status (Except.error e)).isValue = true
      ∧ (cluster_deploy_status (Except.error e)).isValue = true
      ∧ (cluster_creation_error_analysis (Except.error e)).isValue = true
      ∧ (check_if_gather_libvirt_dir_exists (Except.error e)).isValue = true
      ∧ (check_hypervisor_error (Except.error e)).isValue = true
      ∧ (get_node_status (Except.error e)).isValue = true
      ∧ (check_node_crash (Except.error e)).isValue = true
      ∧ (get_lease (Except.error e)).isValue = true
      ∧ (∀ p : String, (get_nightly p (Except.error e)).isValue = true)
      ∧ (get_quota_and_nightly (Except.error e)).isValue = true
      ∧ (get_failed_monitor_testcases (Except.error e)).isValue = true
      ∧ (get_failed_monitor_testcases_from_xml (Except.error e)).isValue = true
      ∧ (get_testcase_frequency (Except.error e)).isValue = true
      ∧ (get_failed_e2e_testcases (Except.error e)).isValue = true
      ∧ (get_junit_symptom_detection_testcase_failures (Except.error e)).isValue = true
      ∧ (get_all_failed_tc (Except.error e)).isValue = true
      ∧ (check_ts_exe_status (Except.error e)).isValue = true
      ∧ (print_all_failed_tc (Except.error e)).isValue = true
      ∧ (check_testcase_failure (Except.error e)).isValue = true
      ∧ (get_jobs_with_date (Except.error e)).isValue = true
      ∧ (get_next_page_first_build_date (Except.error e)).isValue = true
      ∧ (get_brief_job_info (Except.error e)).isValue = true
      ∧ (get_detailed_job_info (Except.error e)).isValue = true := by
  intro e
  cases e
  all_goals repeat' apply And.intro
  all_goals intros
  all_goals rfl

/-- Claim C5: if the collaborator's URL attribute read raises, the mirrored
`PROW_URL` defaults to `None`; if the job-list attribute read raises, the
mirrored `final_job_list` defaults to the empty list; initialization is a
total function (it never raises), and with both reads failing the load-time
state is `(None, [])`. -/
theorem C5_sync_defaults :
    ∀ (e : Exc) (r : Except Exc PyVal),
      (_sync_module_attrs (Except.error e) r).1 = PyVal.none
      ∧ (_sync_module_attrs r (Except.error e)).2 = PyVal.list []
      ∧ moduleInit (Except.error e) (Except.error e)
          = { PROW_URL := PyVal.none, final_job_list := PyVal.list [] } :=
  fun _ _ => ⟨rfl, rfl, rfl⟩

/-- Claim C6: on every collaborator failure kind, `get_lease` returns the
fixed lease override string and `get_nightly` returns the nightly override
f-string instantiated with its `job_platform` argument. -/
theorem C6_lease_nightly_overrides :
    ∀ (e : Exc) (p : String),
      get_lease (Except.error e)
        = AdapterOutcome.ok (PyVal.str "Failed to fetch lease information")
      ∧ get_nightly p (Except.error e)
        = AdapterOutcome.ok
            (PyVal.str ("Unable to fetch nightly " ++ p ++ " information - No match found")) :=
  fun _ _ => ⟨rfl, rfl⟩

/-- Claim C7: on every collaborator failure kind, `get_brief_job_info`
returns the empty list and `get_detailed_job_info` returns the integer 1. -/
theorem C7_job_info_legacy_values :
    ∀ e : Exc,
      get_brief_job_info (Except.error e) = AdapterOutcome.ok (PyVal.list [])
      ∧ get_detailed_job_info (Except.error e) = AdapterOutcome.ok (PyVal.int 1) := by
  intro e
  cases e <;> exact ⟨rfl, rfl⟩

/-- Claim C10: on every collaborator failure kind, `check_testcase_failure`
returns the boolean `False` (it never raises). -/
theorem C10_check_testcase_failure_false :
    ∀ e : Exc,
      check_testcase_failure (Except.error e) = AdapterOutcome.ok (PyVal.bool false) :=
  fun _ => rfl

/-- Claim C8: frame property of the two mirrored globals — invoking any
adapter operation leaves the module state (`PROW_URL`, `final_job_list`)
exactly as it was; only the load-time `moduleInit` writes it. -/
theorem C8_mirrors_frame :
    ∀ (s : ModuleState) (opName strArg : String) (call : Except Exc PyVal),
      (adapterStep s opName strArg call).1 = s := by
  intro s opName strArg call
  unfold adapterStep
  cases adapterOpTable.lookup opName <;> rfl

/-- Claim C9: for every attribute name the adapter module does not define
itself, an attribute access on the adapter module falls back to
`__getattr__` and returns the collaborator's same-named attribute. -/
theorem C9_attribute_fallback :
    ∀ (env : String → Option PyVal) (collab : String → Except Exc PyVal)
      (name : String),
      env name = Option.none →
      adapterModuleAttr env collab name = collab name := by
  intro env collab name h
  unfold adapterModuleAttr __getattr__
  rw [h]

/-- Concrete instance of C9: a constant not among the adapter's own
module-level names is served by the collaborator. -/
theorem C9_attribute_fallback_witness :
    (fun n => if n ∈ adapterDefinedNames then some PyVal.none else Option.none)
        "PROW_VIEW_URL" = Option.none
    ∧ adapterModuleAttr
        (fun n => if n ∈ adapterDefinedNames then some PyVal.none else Option.none)
        (fun _ => Except.ok (PyVal.str "https://example.test"))
        "PROW_VIEW_URL"
      = (fun _ : String => Except.ok (PyVal.str "https://example.test")) "PROW_VIEW_URL" :=
  ⟨rfl, C9_attribute_fallback _ _ _ rfl⟩

/-- Claim C1 counterexample: `set_prow_url` forwards the collaborator call
with no try/except, so when the collaborator raises a TimeoutFailure the
adapter call raises it too — it does not return the documented timeout
value (or any value at all), refuting "for every adapter operation except
the sensitive-info-exposure check ... the adapter call returns (it never
raises)". -/
theorem C1_counterexample_set_prow_url_raises :
    set_prow_url (Except.error Exc.timeout) = AdapterOutcome.raised Exc.timeout
    ∧ (set_prow_url (Except.error Exc.timeout)).isValue = false :=
  ⟨rfl, rfl⟩

/-- Claim C2 counterexample: `get_failed_e2e_testcases` performs no shape
inspection — given a collaborator result that is already a legacy-shaped
2-tuple, it wraps it again as `(tuple, None)` instead of returning it
unchanged, refuting the claim for the failed-testcase extraction
operations as a group. -/
theorem C2_counterexample_e2e_wraps_tuple :
    get_failed_e2e_testcases
        (Except.ok (PyVal.tuple [PyVal.list [PyVal.str "x"], PyVal.none]))
      = AdapterOutcome.ok
          (PyVal.tuple [PyVal.tuple [PyVal.list [PyVal.str "x"], PyVal.none], PyVal.none])
    ∧ AdapterOutcome.ok
          (PyVal.tuple [PyVal.tuple [PyVal.list [PyVal.str "x"], PyVal.none], PyVal.none])
      ≠ AdapterOutcome.ok (PyVal.tuple [PyVal.list [PyVal.str "x"], PyVal.none]) := by
  refine ⟨rfl, ?_⟩
  simp

/-- Claim C2 (amended): among the failed-testcase extraction operations,
only `get_failed_monitor_testcases` inspects the shape of the successful
collaborator result at runtime — a result that is already a tuple is
returned unchanged and a bare list becomes `(list, None)` — while
`get_failed_e2e_testcases`, `get_failed_monitor_testcases_from_xml` and
`get_junit_symptom_detection_testcase_failures` unconditionally pair the
successful result with `None`. -/
theorem C2_amended_shape_normalization :
    (∀ xs : List PyVal,
      get_failed_monitor_testcases (Except.ok (PyVal.list xs))
        = AdapterOutcome.ok (PyVal.tuple [PyVal.list xs, PyVal.none]))
    ∧ (∀ ys : List PyVal,
      get_failed_monitor_testcases (Except.ok (PyVal.tuple ys))
        = AdapterOutcome.ok (PyVal.tuple ys))
    ∧ (∀ v : PyVal,
      get_failed_e2e_testcases (Except.ok v)
        = AdapterOutcome.ok (PyVal.tuple [v, PyVal.none]))
    ∧ (∀ v : PyVal,
      get_failed_monitor_testcases_from_xml (Except.ok v)
        = AdapterOutcome.ok (PyVal.tuple [v, PyVal.none]))
    ∧ (∀ v : PyVal,
      get_junit_symptom_detection_testcase_failures (Except.ok v)
        = AdapterOutcome.ok (PyVal.tuple [v, PyVal.none])) :=
  ⟨fun _ => rfl, fun _ => rfl, fun _ => rfl, fun _ => rfl, fun _ => rfl⟩

/-- Claim C3: for every collaborator mapping whose `"conformance"`,
`"monitor"` and `"symptom_detection"` keys hold lists, `get_all_failed_tc`
returns the 3-tuple of that same mapping, the sum of the three sub-list
lengths, and the error map binding all three keys to `None`. -/
theorem C3_all_failed_tc_dict_aggregation :
    ∀ (d : List (String × PyVal)) (cs ms ss : List PyVal),
      d.lookup "conformance" = some (PyVal.list cs) →
      d.lookup "monitor" = some (PyVal.list ms) →
      d.lookup "symptom_detection" = some (PyVal.list ss) →
      get_all_failed_tc (Except.ok (PyVal.dict d))
        = AdapterOutcome.ok (PyVal.tuple [PyVal.dict d,
            PyVal.int (cs.length + ms.length + ss.length),
            PyVal.dict [("conformance", PyVal.none), ("monitor", PyVal.none),
              ("symptom_detection", PyVal.none)]]) := by
  intro d cs ms ss h1 h2 h3
  simp only [get_all_failed_tc, get_all_failed_tc_body, pyDictGet, h1, h2, h3,
    Option.getD_some, pyLen]

/-- Concrete instance of C3, at the input named by the claim:
`{"conformance": ["a"], "monitor": [], "symptom_detection": ["b","c"]}`
yields `(that mapping, 3, all-None error map)`. -/
theorem C3_all_failed_tc_dict_aggregation_witness :
    ([("conformance", PyVal.list [PyVal.str "a"]),
      ("monitor", PyVal.list []),
      ("symptom_detection", PyVal.list [PyVal.str "b", PyVal.str "c"])].lookup "conformance"
        = some (PyVal.list [PyVal.str "a"]))
    ∧ ([("conformance", PyVal.list [PyVal.str "a"]),
        ("monitor", PyVal.list []),
        ("symptom_detection", PyVal.list [PyVal.str "b", PyVal.str "c"])].lookup "monitor"
        = some (PyVal.list []))
    ∧ ([("conformance", PyVal.list [PyVal.str "a"]),
        ("monitor", PyVal.list []),
        ("symptom_detection", PyVal.list [PyVal.str "b", PyVal.str "c"])].lookup "symptom_detection"
        = some (PyVal.list [PyVal.str "b", PyVal.str "c"]))
    ∧ get_all_failed_tc (Except.ok (PyVal.dict
        [("conformance", PyVal.list [PyVal.str "a"]),
         ("monitor", PyVal.list []),
         ("symptom_detection", PyVal.list [PyVal.str "b", PyVal.str "c"])]))
      = AdapterOutcome.ok (PyVal.tuple [PyVal.dict
          [("conformance", PyVal.list [PyVal.str "a"]),
           ("monitor", PyVal.list []),
           ("symptom_detection", PyVal.list [PyVal.str "b", PyVal.str "c"])],
          PyVal.int 3,
          PyVal.dict [("conformance", PyVal.none), ("monitor", PyVal.none),
            ("symptom_detection", PyVal.none)]]) := by
  refine ⟨rfl, rfl, rfl, ?_⟩
  have h := C3_all_failed_tc_dict_aggregation
    [("conformance", PyVal.list [PyVal.str "a"]),
     ("monitor", PyVal.list []),
     ("symptom_detection", PyVal.list [PyVal.str "b", PyVal.str "c"])]
    [PyVal.str "a"] [] [PyVal.str "b", PyVal.str "c"] rfl rfl rfl
  simpa using h

/-- Claim C1 (amended): for every adapter operation that wraps its
collaborator call in a try/except — that is, excluding the plain-forwarding
operations `set_prow_url`, `load_config`, `get_current_date`,
`parse_job_date` and `job_classifier`, and excluding the
sensitive-info-exposure check — if the collaborator raises a
TimeoutFailure, FetchFailure or ParseFailure, the adapter call returns (it
never raises) and the returned value is exactly the documented legacy value
for that operation and error kind. -/
theorem C1_amended_catching_ops_legacy_values :
      (fetch_release_date (Except.error Exc.timeout)
        = AdapterOutcome.ok (PyVal.str "Request timed out"))
      ∧ (fetch_release_date (Except.error Exc.fetch)
        = AdapterOutcome.ok (PyVal.str "Error while sending request to url"))
      ∧ (fetch_release_date (Except.error Exc.parse)
        = AdapterOutcome.ok (PyVal.str "ERROR"))
      ∧ (fetch_build_time (Except.error Exc.timeout)
        = AdapterOutcome.ok (PyVal.str "Request timed out"))
      ∧ (fetch_build_time (Except.error Exc.fetch)
        = AdapterOutcome.ok (PyVal.str "Error while sending request to url"))
      ∧ (fetch_build_time (Except.error Exc.parse)
        = AdapterOutcome.ok (PyVal.str "ERROR"))
      ∧ (get_jobs (Except.error Exc.timeout)
        = AdapterOutcome.ok (PyVal.str "Request timed out"))
      ∧ (get_jobs (Except.error Exc.fetch)
        = AdapterOutcome.ok (PyVal.str "Error while sending request to url"))
      ∧ (get_jobs (Except.error Exc.parse)
        = AdapterOutcome.ok (PyVal.str "ERROR"))
      ∧ (get_n_recent_jobs (Except.error Exc.timeout)
        = AdapterOutcome.ok (PyVal.str "Request timed out"))
      ∧ (get_n_recent_jobs (Except.error Exc.fetch)
        = AdapterOutcome.ok (PyVal.str "Error while sending request to url"))
      ∧ (get_n_recent_jobs (Except.error Exc.parse)
        = AdapterOutcome.ok (PyVal.str "ERROR"))
      ∧ (check_job_status (Except.error Exc.timeout)
        = AdapterOutcome.ok (PyVal.str "Request timed out"))
      ∧ (check_job_status (Except.error Exc.fetch)
        = AdapterOutcome.ok (PyVal.str "Error while sending request to url"))
      ∧ (check_job_status (Except.error Exc.parse)
        = AdapterOutcome.ok (PyVal.str "ERROR"))
      ∧ (cluster_deploy_status (Except.error Exc.timeout)
        = AdapterOutcome.ok (PyVal.str "Request timed out"))
      ∧ (cluster_deploy_status (Except.error Exc.fetch)
        = AdapterOutcome.ok (PyVal.str "Error while sending request to url"))
      ∧ (cluster_deploy_status (Except.error Exc.parse)
        = AdapterOutcome.ok (PyVal.str "ERROR"))
      ∧ (cluster_creation_error_analysis (Except.error Exc.timeout)
        = AdapterOutcome.ok (PyVal.str "Request timed out"))
      ∧ (cluster_creation_error_analysis (Except.error Exc.fetch)
        = AdapterOutcome.ok (PyVal.str "Error while sending request to url"))
      ∧ (cluster_creation_error_analysis (Except.error Exc.parse)
        = AdapterOutcome.ok (PyVal.str "ERROR"))
      ∧ (check_if_gather_libvirt_dir_exists (Except.error Exc.timeout)
        = AdapterOutcome.ok (PyVal.str "Request timed out"))
      ∧ (check_if_gather_libvirt_dir_exists (Except.error Exc.fetch)
        = AdapterOutcome.ok (PyVal.str "Error while sending request to url"))
      ∧ (check_if_gather_libvirt_dir_exists (Except.error Exc.parse)
        = AdapterOutcome.ok (PyVal.str "ERROR"))
      ∧ (check_hypervisor_error (Except.error Exc.timeout)
        = AdapterOutcome.ok (PyVal.str "Request timed out"))
      ∧ (check_hypervisor_error (Except.error Exc.fetch)
        = AdapterOutcome.ok (PyVal.str "Error while sending request to url"))
      ∧ (check_hypervisor_error (Except.error Exc.parse)
        = AdapterOutcome.ok (PyVal.str "ERROR"))
      ∧ (get_node_status (Except.error Exc.timeout)
        = AdapterOutcome.ok (PyVal.str "Request timed out"))
      ∧ (get_node_status (Except.error Exc.fetch)
        = AdapterOutcome.ok (PyVal.str "Error while sending request to url"))
      ∧ (get_node_status (Except.error Exc.parse)
        = AdapterOutcome.ok (PyVal.str "ERROR"))
      ∧ (check_node_crash (Except.error Exc.timeout)
        = AdapterOutcome.ok (PyVal.str "Request timed out"))
      ∧ (check_node_crash (Except.error Exc.fetch)
        = AdapterOutcome.ok (PyVal.str "Error while sending request to url"))
      ∧ (check_node_crash (Except.error Exc.parse)
        = AdapterOutcome.ok (PyVal.str "ERROR"))
      ∧ (get_lease (Except.error Exc.timeout)
        = AdapterOutcome.ok (PyVal.str "Failed to fetch lease information"))
      ∧ (get_lease (Except.error Exc.fetch)
        = AdapterOutcome.ok (PyVal.str "Failed to fetch lease information"))
      ∧ (get_lease (Except.error Exc.parse)
        = AdapterOutcome.ok (PyVal.str "Failed to fetch lease information"))
      ∧ (∀ p : String, get_nightly p (Except.error Exc.timeout)
        = AdapterOutcome.ok (PyVal.str ("Unable to fetch nightly " ++ p ++ " information - No match found")))
      ∧ (∀ p : String, get_nightly p (Except.error Exc.fetch)
        = AdapterOutcome.ok (PyVal.str ("Unable to fetch nightly " ++ p ++ " information - No match found")))
      ∧ (∀ p : String, get_nightly p (Except.error Exc.parse)
        = AdapterOutcome.ok (PyVal.str ("Unable to fetch nightly " ++ p ++ " information - No match found")))
      ∧ (get_quota_and_nightly (Except.error Exc.timeout)
        = AdapterOutcome.ok (PyVal.tuple [PyVal.str "Request timed out", PyVal.none]))
      ∧ (get_quota_and_nightly (Except.error Exc.fetch)
        = AdapterOutcome.ok (PyVal.tuple [PyVal.str "Error while sending request to url", PyVal.none]))
      ∧ (get_quota_and_nightly (Except.error Exc.parse)
        = AdapterOutcome.ok (PyVal.tuple [PyVal.str "Failed to fetch lease information", PyVal.none]))
      ∧ (get_failed_monitor_testcases (Except.error Exc.timeout)
        = AdapterOutcome.ok (PyVal.tuple [PyVal.list [], PyVal.str "Request timed out"]))
      ∧ (get_failed_monitor_testcases (Except.error Exc.fetch)
        = AdapterOutcome.ok (PyVal.tuple [PyVal.list [], PyVal.str "Failed to get response from e2e-test directory url"]))
      ∧ (get_failed_monitor_testcases (Except.error Exc.parse)
        = AdapterOutcome.ok (PyVal.tuple [PyVal.list [], PyVal.str "Failed to parse the data from e2e-test log file!"]))
      ∧ (get_failed_monitor_testcases_from_xml (Except.error Exc.timeout)
        = AdapterOutcome.ok (PyVal.tuple [PyVal.list [], PyVal.str "Request timed out"]))
      ∧ (get_failed_monitor_testcases_from_xml (Except.error Exc.fetch)
        = AdapterOutcome.ok (PyVal.tuple [PyVal.list [], PyVal.str "Failed to get response from e2e-test directory url"]))
      ∧ (get_failed_monitor_testcases_from_xml (Except.error Exc.parse)
        = AdapterOutcome.ok (PyVal.tuple [PyVal.list [], PyVal.str "Failed to parse junit e2e log file!"]))
      ∧ (get_testcase_frequency (Except.error Exc.timeout)
        = AdapterOutcome.ok (PyVal.dict []))
      ∧ (get_testcase_frequency (Except.error Exc.fetch)
        = AdapterOutcome.ok (PyVal.dict []))
      ∧ (get_testcase_frequency (Except.error Exc.parse)
        = AdapterOutcome.ok (PyVal.dict []))
      ∧ (get_failed_e2e_testcases (Except.error Exc.timeout)
        = AdapterOutcome.ok (PyVal.tuple [PyVal.list [], PyVal.str "Request timed out"]))
      ∧ (get_failed_e2e_testcases (Except.error Exc.fetch)
        = AdapterOutcome.ok (PyVal.tuple [PyVal.list [], PyVal.str "Failed to get response from e2e-test directory url"]))
      ∧ (get_failed_e2e_testcases (Except.error Exc.parse)
        = AdapterOutcome.ok (PyVal.tuple [PyVal.list [], PyVal.str "Failed to parse the data from e2e-test log file!"]))
      ∧ (get_junit_symptom_detection_testcase_failures (Except.error Exc.timeout)
        = AdapterOutcome.ok (PyVal.tuple [PyVal.list [], PyVal.str "Request timed out"]))
      ∧ (get_junit_symptom_detection_testcase_failures (Except.error Exc.fetch)
        = AdapterOutcome.ok (PyVal.tuple [PyVal.list [], PyVal.str "Error while sending request to url"]))
      ∧ (get_junit_symptom_detection_testcase_failures (Except.error Exc.parse)
        = AdapterOutcome.ok (PyVal.tuple [PyVal.list [], PyVal.str "Failed to parse symptom detection e2e log file!"]))
      ∧ (get_all_failed_tc (Except.error Exc.timeout)
        = AdapterOutcome.ok (PyVal.tuple [PyVal.dict [], PyVal.int 0, PyVal.dict [("conformance", PyVal.str "Request timed out"), ("monitor", PyVal.str "Request timed out"), ("symptom_detection", PyVal.str "Request timed out")]]))
      ∧ (get_all_failed_tc (Except.error Exc.fetch)
        = AdapterOutcome.ok (PyVal.tuple [PyVal.dict [], PyVal.int 0, PyVal.dict [("conformance", PyVal.str "Error while sending request to url"), ("monitor", PyVal.str "Error while sending request to url"), ("symptom_detection", PyVal.str "Error while sending request to url")]]))
      ∧ (get_all_failed_tc (Except.error Exc.parse)
        = AdapterOutcome.ok (PyVal.tuple [PyVal.dict [], PyVal.int 0, PyVal.dict [("conformance", PyVal.str "Failed to parse the data from e2e-test log file!"), ("monitor", PyVal.str "Failed to parse the data from e2e-test log file!"), ("symptom_detection", PyVal.str "Failed to parse the data from e2e-test log file!")]]))
      ∧ (check_ts_exe_status (Except.error Exc.timeout)
        = AdapterOutcome.ok (PyVal.str "Request timed out"))
      ∧ (check_ts_exe_status (Except.error Exc.fetch)
        = AdapterOutcome.ok (PyVal.str "Error while sending request to url"))
      ∧ (check_ts_exe_status (Except.error Exc.parse)
        = AdapterOutcome.ok (PyVal.str "ERROR"))
      ∧ (print_all_failed_tc (Except.error Exc.timeout)
        = AdapterOutcome.ok (PyVal.str "Request timed out"))
      ∧ (print_all_failed_tc (Except.error Exc.fetch)
        = AdapterOutcome.ok (PyVal.str "Error while sending request to url"))
      ∧ (print_all_failed_tc (Except.error Exc.parse)
        = AdapterOutcome.ok (PyVal.str "ERROR"))
      ∧ (check_testcase_failure (Except.error Exc.timeout)
        = AdapterOutcome.ok (PyVal.bool false))
      ∧ (check_testcase_failure (Except.error Exc.fetch)
        = AdapterOutcome.ok (PyVal.bool false))
      ∧ (check_testcase_failure (Except.error Exc.parse)
        = AdapterOutcome.ok (PyVal.bool false))
      ∧ (get_jobs_with_date (Except.error Exc.timeout)
        = AdapterOutcome.ok (PyVal.str "Request timed out"))
      ∧ (get_jobs_with_date (Except.error Exc.fetch)
        = AdapterOutcome.ok (PyVal.str "Error while sending request to url"))
      ∧ (get_jobs_with_date (Except.error Exc.parse)
        = AdapterOutcome.ok (PyVal.str "ERROR"))
      ∧ (get_next_page_first_build_date (Except.error Exc.timeout)
        = AdapterOutcome.ok (PyVal.str "Request timed out"))
      ∧ (get_next_page_first_build_date (Except.error Exc.fetch)
        = AdapterOutcome.ok (PyVal.str "Error while sending request to url"))
      ∧ (get_next_page_first_build_date (Except.error Exc.parse)
        = AdapterOutcome.ok (PyVal.str "ERROR"))
      ∧ (get_brief_job_info (Except.error Exc.timeout)
        = AdapterOutcome.ok (PyVal.list []))
      ∧ (get_brief_job_info (Except.error Exc.fetch)
        = AdapterOutcome.ok (PyVal.list []))
      ∧ (get_brief_job_info (Except.error Exc.parse)
        = AdapterOutcome.ok (PyVal.list []))
      ∧ (get_detailed_job_info (Except.error Exc.timeout)
        = AdapterOutcome.ok (PyVal.int 1))
      ∧ (get_detailed_job_info (Except.error Exc.fetch)
        = AdapterOutcome.ok (PyVal.int 1))
      ∧ (get_detailed_job_info (Except.error Exc.parse)
        = AdapterOutcome.ok (PyVal.int 1)) := by
  repeat' apply And.intro
  all_goals intros
  all_goals rfl
